import Mathlib

/-! # Archive factory, renderer settings and plugin bootloader of the emulator

A shallow embedding of

* `src/core/file_sys/archive_systemsavedata.h` (class `ArchiveFactory_SystemSaveData`
  and the path helpers declared next to it),
* `src/video_core/renderer_base.cpp` (`GetResolutionScaleFactor`, `RequestScreenshot`,
  `IsScreenshotPending`),
* `src/core/file_sys/plugin_3gx_bootloader.h` (the byte array
  `g_plugin_loader_bootloader` and the assembly listing it was built from),

followed by the theorems proved about them.

Conventions: a `std::shared_ptr<T>` is an `Option T` (`none` is the null pointer), a `u32`
or `u8` that is only stored and compared is a `Nat`, a member function that mutates the
object returns the new object.
-/

set_option autoImplicit false

namespace FileSys

/-! ## `ArchiveFactory_SystemSaveData` -/

/-- The data members of `ArchiveFactory_SystemSaveData` (header lines 52-54): the mount
root `base_path` and the shared pointer `artic_client`, `none` being `nullptr`. -/
structure ArchiveFactory_SystemSaveData (Client : Type) where
  base_path : String
  artic_client : Option Client
deriving DecidableEq, Repr

namespace ArchiveFactory_SystemSaveData

variable {Client : Type}

/-- The private constructor `ArchiveFactory_SystemSaveData() = default;` (line 56): the
string is empty and `artic_client` takes its default member initialiser `nullptr`. -/
def defaultConstructed : ArchiveFactory_SystemSaveData Client :=
  { base_path := "", artic_client := none }

/-- Modelled from the spec: the body of the constructor
`ArchiveFactory_SystemSaveData(const std::string& mount_point)` is in
`archive_systemsavedata.cpp`, which is not among the sources. The spec (section 3) says the
mount root is set once at construction; the string stored is computed from `mount_point`
by `containerPath`, a parameter. `artic_client` keeps the default member initialiser of
header line 54, `nullptr`. -/
def fromMountPoint (containerPath : String → String) (mount_point : String) :
    ArchiveFactory_SystemSaveData Client :=
  { base_path := containerPath mount_point, artic_client := none }

/-- The member `bool IsUsingArtic() const { return artic_client.get() != nullptr; }`. -/
def IsUsingArtic (self : ArchiveFactory_SystemSaveData Client) : Bool :=
  self.artic_client.isSome

/-- The member `bool IsSlow() override { return IsUsingArtic(); }`. -/
def IsSlow (self : ArchiveFactory_SystemSaveData Client) : Bool :=
  self.IsUsingArtic

/-- The member `void RegisterArtic(std::shared_ptr<Client>& client) { artic_client = client; }`. -/
def RegisterArtic (self : ArchiveFactory_SystemSaveData Client) (client : Option Client) :
    ArchiveFactory_SystemSaveData Client :=
  { self with artic_client := client }

end ArchiveFactory_SystemSaveData

/-! ## Snapshot records

A boost archive is modelled as the sequence of primitive items written to it. `ar & x`
appends the items of `x` when saving and consumes them from the front when loading. -/

/-- A primitive item of an archive stream; the only primitive this class writes is a
`std::string`. -/
inductive ArchiveItem where
  | string (s : String)
deriving DecidableEq, Repr

/-- The archive stream. -/
abbrev ArchiveStream := List ArchiveItem

/-- Modelled from the spec: the base class `ArchiveFactory` is declared in
`core/file_sys/archive_backend.h`, which is not among the sources. The spec (section 3)
gives a factory exactly two pieces of state, the mount root and the optional remote client,
both members of the derived class, and (section 4.5) a snapshot that "captures exactly the
MountRoot string"; so the base sub-object has no data and its `serialize` writes no item. -/
def ArchiveFactory.serializeSave (ar : ArchiveStream) : ArchiveStream := ar

/-- Modelled from the spec: the loading side of the base class `serialize` (see
`ArchiveFactory.serializeSave`): it consumes no item. -/
def ArchiveFactory.serializeLoad (ar : ArchiveStream) : Option ArchiveStream := some ar

namespace ArchiveFactory_SystemSaveData

variable {Client : Type}

/-- The template `serialize` (lines 57-61) instantiated with a saving archive:
`ar & base_object<ArchiveFactory>(*this); ar & base_path;`. The member `artic_client` is
not mentioned in the body. -/
def serializeSave (self : ArchiveFactory_SystemSaveData Client) (ar : ArchiveStream) :
    ArchiveStream :=
  ArchiveFactory.serializeSave ar ++ [ArchiveItem.string self.base_path]

/-- The template `serialize` instantiated with a loading archive: the base sub-object is
read first, then the next item is read into `base_path`; `artic_client` is not assigned.
`none` when the stream has no item left. -/
def serializeLoad (self : ArchiveFactory_SystemSaveData Client) (ar : ArchiveStream) :
    Option (ArchiveFactory_SystemSaveData Client × ArchiveStream) :=
  match ArchiveFactory.serializeLoad ar with
  | none => none
  | some rest =>
    match rest with
    | ArchiveItem.string s :: rest2 => some ({ self with base_path := s }, rest2)
    | [] => none

/-- The snapshot record of a factory: what `serialize` writes to an empty archive. -/
def snapshot (self : ArchiveFactory_SystemSaveData Client) : ArchiveStream :=
  self.serializeSave []

/-- Restoring a snapshot: boost default-constructs the object through the private
constructor and runs `serialize` on it with the loading archive. -/
def restore (ar : ArchiveStream) : Option (ArchiveFactory_SystemSaveData Client) :=
  match (defaultConstructed : ArchiveFactory_SystemSaveData Client).serializeLoad ar with
  | none => none
  | some (f, _) => some f

end ArchiveFactory_SystemSaveData

end FileSys

namespace FileSys

/-! ## Path codec

`GetSystemSaveDataPath` and `ConstructSystemSaveDataBinaryPath` are declared in the header
(lines 72 and 89); their bodies are in `archive_systemsavedata.cpp`. -/

/-- Modelled from the spec: `FileSys::Path` is declared in `core/file_sys/archive_backend.h`,
which is not among the sources. The path built from an archive identifier is, in the
words of the spec (section 3), "a fixed-width binary path record": a sequence of bytes. -/
structure Path where
  binary : List Nat
deriving DecidableEq, Repr

/-- The four bytes of a `u32`, least significant first; the argument is truncated to 32
bits as a `u32` parameter is. -/
def u32Bytes (w : Nat) : List Nat :=
  [w % 256, w / 256 % 256, w / 65536 % 256, w / 16777216 % 256]

/-- The `u32` stored least significant byte first at index `i` of a byte sequence; a
missing byte reads as 0. -/
def readU32 (bytes : List Nat) (i : Nat) : Nat :=
  bytes.getD i 0 % 256 + 256 * (bytes.getD (i + 1) 0 % 256)
    + 65536 * (bytes.getD (i + 2) 0 % 256) + 16777216 * (bytes.getD (i + 3) 0 % 256)

/-- Modelled from the spec: the body of `ConstructSystemSaveDataBinaryPath(u32 high, u32 low)`
is not among the sources. Header lines 82-88: "Constructs a FileSys::Path object that
refers to the SystemSaveData archive identified by the specified high save id and low save
id"; spec section 3: the pair of 32-bit words "encodes to a fixed-width binary path
record". The record is the eight bytes of `high` followed by `low`. -/
def ConstructSystemSaveDataBinaryPath (high low : Nat) : Path :=
  { binary := u32Bytes high ++ u32Bytes low }

/-- The sixteen hexadecimal digits. -/
def hexDigits : List Char :=
  ['0', '1', '2', '3', '4', '5', '6', '7', '8', '9', 'A', 'B', 'C', 'D', 'E', 'F']

/-- The digit character of a value below 16. -/
def hexDigit (d : Nat) : Char := hexDigits.getD d '0'

/-- The value of a hexadecimal digit character, `none` for any other character. -/
def hexValue (c : Char) : Option Nat :=
  let i := hexDigits.indexOf c
  if i < 16 then some i else none

/-- A 32-bit word as exactly eight hexadecimal digits, most significant first. -/
def hex8 (w : Nat) : List Char :=
  [hexDigit (w / 268435456 % 16), hexDigit (w / 16777216 % 16), hexDigit (w / 1048576 % 16),
   hexDigit (w / 65536 % 16), hexDigit (w / 4096 % 16), hexDigit (w / 256 % 16),
   hexDigit (w / 16 % 16), hexDigit (w % 16)]

/-- The number written by a sequence of hexadecimal digits, `none` when a character is
not a digit. -/
def parseHex (cs : List Char) : Option Nat :=
  cs.foldl (fun acc c => acc.bind fun a => (hexValue c).map fun d => 16 * a + d) (some 0)

/-- Modelled from the spec: the body of `GetSystemSaveDataPath(mount_point, path)` is not
among the sources. Spec section 6 gives the path convention
`<mountRoot>/<archive-type-subfolder>/<encode(high, low)>`, "reproducible byte-for-byte from
(mountRoot, high, low) alone", and section 4.1 nests it "under a fixed container archives
subfolder of mountRoot". The name of the subfolder is the parameter `subfolder`; the two
words are read back from the binary record and `encode(high, low)` is their fixed-width
rendering, eight hexadecimal digits each, `high` first. -/
def GetSystemSaveDataPath (subfolder : String) (mount_point : String) (path : Path) : String :=
  mount_point ++ "/" ++ subfolder ++ "/"
    ++ String.mk (hex8 (readU32 path.binary 0) ++ hex8 (readU32 path.binary 4))

/-- Removes an expected leading sequence of characters; `none` when the text does not
start with it. -/
def stripLeading : List Char → List Char → Option (List Char)
  | [], rest => some rest
  | _ :: _, [] => none
  | a :: as, b :: bs => if a = b then stripLeading as bs else none

/-- Modelled from the spec: the decoding direction of the path codec (section 2: the codec
converts an identifier and a mount root into a host-side path "and back") has no function
in the header. It removes `<mountRoot>/<archive-type-subfolder>/` from the front of the
path and reads the sixteen digits left as the pair `(high, low)`. -/
def DecodeSystemSaveDataPath (subfolder : String) (mount_point : String) (p : String) :
    Option (Nat × Nat) :=
  match stripLeading (mount_point ++ "/" ++ subfolder ++ "/").data p.data with
  | none => none
  | some body =>
    if body.length = 16 then
      match parseHex (body.take 8), parseHex (body.drop 8) with
      | some high, some low => some (high, low)
      | _, _ => none
    else none

end FileSys

namespace VideoCore

/-! ## `RendererBase` -/

/-- The two values of `Settings::values` read by `GetResolutionScaleFactor`. The enum
`Settings::GraphicsAPI` is declared in `common/settings.h`, which is not among the sources:
it is the type parameter `GraphicsAPI`. -/
structure SettingsValues (GraphicsAPI : Type) where
  graphics_api : GraphicsAPI
  resolution_factor : Nat

/-- The member `RendererBase::GetResolutionScaleFactor` (renderer_base.cpp lines 25-35).
`Software` is the enumerator `Settings::GraphicsAPI::Software`, `GetScalingRatio` the member
of `Layout::FramebufferLayout` of that name and `layout` the value of
`render_window.GetFramebufferLayout()`. -/
def GetResolutionScaleFactor {GraphicsAPI Layout : Type} [DecidableEq GraphicsAPI]
    (Software : GraphicsAPI) (GetScalingRatio : Layout → Nat)
    (values : SettingsValues GraphicsAPI) (layout : Layout) : Nat :=
  let graphics_api := values.graphics_api
  if graphics_api = Software then
    1
  else
    let scale_factor := values.resolution_factor
    if scale_factor ≠ 0 then scale_factor else GetScalingRatio layout

/-- The fields of `RendererBase::settings` that `RequestScreenshot` and
`IsScreenshotPending` read and write. `Ptr` stands for `void*`, `Callback` for
`std::function<void(bool)>` and `Layout` for `Layout::FramebufferLayout`. -/
structure RendererSettings (Ptr Callback Layout : Type) where
  screenshot_requested : Bool
  screenshot_bits : Ptr
  screenshot_complete_callback : Callback
  screenshot_framebuffer_layout : Layout
deriving DecidableEq, Repr

/-- The member `RendererBase::IsScreenshotPending` (lines 60-62). -/
def IsScreenshotPending {Ptr Callback Layout : Type}
    (settings : RendererSettings Ptr Callback Layout) : Bool :=
  settings.screenshot_requested

/-- The member `RendererBase::RequestScreenshot` (lines 64-74), as a function from the
settings before the call to the settings after it. The early return also logs an error. -/
def RequestScreenshot {Ptr Callback Layout : Type}
    (settings : RendererSettings Ptr Callback Layout)
    (data : Ptr) (callback : Callback) (layout : Layout) :
    RendererSettings Ptr Callback Layout :=
  if settings.screenshot_requested then
    settings
  else
    { screenshot_bits := data
      screenshot_complete_callback := callback
      screenshot_framebuffer_layout := layout
      screenshot_requested := true }

/-- The arguments of one call of `RequestScreenshot`. -/
structure ScreenshotRequest (Ptr Callback Layout : Type) where
  data : Ptr
  callback : Callback
  layout : Layout

/-- A sequence of calls of `RequestScreenshot`, first call first. -/
def requestAll {Ptr Callback Layout : Type}
    (settings : RendererSettings Ptr Callback Layout)
    (calls : List (ScreenshotRequest Ptr Callback Layout)) :
    RendererSettings Ptr Callback Layout :=
  calls.foldl (fun s r => RequestScreenshot s r.data r.callback r.layout) settings

end VideoCore

namespace Plugin3GX

/-! ## The plugin bootloader payload -/

/-- The array `g_plugin_loader_bootloader` (plugin_3gx_bootloader.h lines 161-187), 412
bytes. -/
def g_plugin_loader_bootloader : List Nat :=
  [0xff, 0x1f, 0x2d, 0xe9, 0x00, 0x00, 0x0f, 0xe1, 0x01, 0x00, 0x2d, 0xe9, 0xf0, 0x00, 0x8f, 0xe2,
   0x04, 0x10, 0x90, 0xe5, 0x00, 0x00, 0x90, 0xe5, 0xd4, 0x20, 0x8f, 0xe2, 0x0f, 0xe0, 0xa0, 0xe1,
   0xf4, 0xf0, 0x8f, 0xe2, 0xe0, 0x10, 0x8f, 0xe2, 0x00, 0x10, 0x91, 0xe5, 0x01, 0x00, 0x50, 0xe1,
   0xd8, 0x00, 0x8f, 0xe2, 0x00, 0x00, 0x90, 0xe5, 0x01, 0x10, 0xa0, 0x03, 0x00, 0x10, 0xa0, 0x13,
   0x00, 0x10, 0x80, 0xe5, 0x03, 0x00, 0x00, 0x1f, 0xc8, 0x00, 0x8f, 0xe2, 0x00, 0x00, 0xd0, 0xe5,
   0x01, 0x00, 0x50, 0xe3, 0x09, 0x00, 0x00, 0x0a, 0x78, 0x40, 0x9f, 0xe5, 0x78, 0x50, 0x9f, 0xe5,
   0x40, 0x60, 0xa0, 0xe3, 0x00, 0x50, 0x84, 0xe5, 0x70, 0x00, 0x9f, 0xe5, 0x00, 0x10, 0xa0, 0xe3,
   0x0a, 0x00, 0x00, 0xef, 0x01, 0x60, 0x56, 0xe2, 0xf9, 0xff, 0xff, 0x1a, 0x00, 0x60, 0x84, 0xe5,
   0x5c, 0x00, 0x9f, 0xe5, 0x01, 0x10, 0xa0, 0xe3, 0xb3, 0x00, 0x00, 0xef, 0x54, 0x00, 0x8f, 0xe2,
   0x58, 0x10, 0x8f, 0xe2, 0x00, 0x10, 0x91, 0xe5, 0x00, 0x20, 0x90, 0xe5, 0x00, 0x20, 0x81, 0xe5,
   0x04, 0x20, 0x90, 0xe5, 0x04, 0x20, 0x81, 0xe5, 0x94, 0x00, 0x00, 0xef, 0x34, 0x00, 0x8f, 0xe2,
   0x04, 0x00, 0x2d, 0xe5, 0x58, 0x50, 0x8f, 0xe2, 0x00, 0x50, 0x95, 0xe5, 0x35, 0xff, 0x2f, 0xe1,
   0x04, 0xd0, 0x8d, 0xe2, 0x01, 0x00, 0xbd, 0xe8, 0x00, 0xf0, 0x29, 0xe1, 0xff, 0x1f, 0xbd, 0xe8,
   0x18, 0xe0, 0x8f, 0xe2, 0x00, 0xf0, 0x9e, 0xe5, 0x04, 0x22, 0x20, 0x90, 0x33, 0x99, 0xff, 0x01,
   0x40, 0x4b, 0xff, 0x00, 0x01, 0x80, 0xff, 0xff, 0x00, 0x00, 0xad, 0xde, 0x01, 0x00, 0xad, 0xde,
   0x02, 0x00, 0xad, 0xde, 0x03, 0x00, 0xad, 0xde, 0x00, 0x00, 0x00, 0x00, 0x00, 0x00, 0x00, 0x00,
   0x00, 0x00, 0x00, 0x00, 0x04, 0x00, 0xad, 0xde, 0x05, 0x00, 0xad, 0xde, 0x06, 0x00, 0xad, 0xde,
   0x07, 0x00, 0xad, 0xde, 0x08, 0x00, 0xad, 0xde, 0x09, 0x00, 0xad, 0xde, 0x0a, 0x00, 0xad, 0xde,
   0x00, 0xf0, 0x20, 0xe3, 0x00, 0xf0, 0x20, 0xe3, 0x00, 0xf0, 0x20, 0xe3, 0x00, 0xf0, 0x20, 0xe3,
   0x00, 0xf0, 0x20, 0xe3, 0x00, 0xf0, 0x20, 0xe3, 0x00, 0xf0, 0x20, 0xe3, 0x00, 0xf0, 0x20, 0xe3,
   0x00, 0xf0, 0x20, 0xe3, 0x00, 0xf0, 0x20, 0xe3, 0x00, 0xf0, 0x20, 0xe3, 0x00, 0xf0, 0x20, 0xe3,
   0x00, 0xf0, 0x20, 0xe3, 0x00, 0xf0, 0x20, 0xe3, 0x00, 0xf0, 0x20, 0xe3, 0x00, 0xf0, 0x20, 0xe3,
   0x00, 0xf0, 0x20, 0xe3, 0x00, 0xf0, 0x20, 0xe3, 0x00, 0xf0, 0x20, 0xe3, 0x00, 0xf0, 0x20, 0xe3,
   0x00, 0xf0, 0x20, 0xe3, 0x00, 0xf0, 0x20, 0xe3, 0x00, 0xf0, 0x20, 0xe3, 0x00, 0xf0, 0x20, 0xe3,
   0x00, 0xf0, 0x20, 0xe3, 0x00, 0xf0, 0x20, 0xe3, 0x00, 0xf0, 0x20, 0xe3, 0x00, 0xf0, 0x20, 0xe3,
   0x00, 0xf0, 0x20, 0xe3, 0x00, 0xf0, 0x20, 0xe3, 0x1e, 0xff, 0x2f, 0xe1]

/-- The data labels of the assembly listing (lines 107-124). -/
inductive Label where
  | g_savedGameInstr
  | g_gameentrypoint
  | g_plgloadexeargs
  | g_plgstartendptr
  | g_loadexechecksum
  | g_plgldrlaunchstatus
  | g_plgentrypoint
  | g_plgnoflash
  | g_loadexefunc
deriving DecidableEq, Repr

/-- An instruction line of the listing, kept as far as its data reference goes:
`adr rd, label`, `ldr rd, =const`, or any other instruction. Registers are numbered,
`lr` being 14 and `pc` 15. -/
inductive AsmLine where
  | adr (rd : Nat) (label : Label)
  | ldrConst (rd : Nat) (const : Nat)
  | other
deriving DecidableEq, Repr

/-- The instructions of the listing before `.pool` (lines 30-103), in order. -/
def listing : List AsmLine :=
  [AsmLine.other,                               -- stmfd sp!, {r0-r12}
   AsmLine.other,                               -- mrs r0, cpsr
   AsmLine.other,                               -- stmfd sp!, {r0}
   AsmLine.adr 0 Label.g_plgstartendptr,        -- adr r0, g_plgstartendptr
   AsmLine.other,                               -- ldr r1, [r0, #4]
   AsmLine.other,                               -- ldr r0, [r0]
   AsmLine.adr 2 Label.g_plgloadexeargs,        -- adr r2, g_plgloadexeargs
   AsmLine.other,                               -- mov lr, pc
   AsmLine.adr 15 Label.g_loadexefunc,          -- adr pc, g_loadexefunc
   AsmLine.adr 1 Label.g_loadexechecksum,       -- adr r1, g_loadexechecksum
   AsmLine.other,                               -- ldr r1, [r1]
   AsmLine.other,                               -- cmp r0, r1
   AsmLine.adr 0 Label.g_plgldrlaunchstatus,    -- adr r0, g_plgldrlaunchstatus
   AsmLine.other,                               -- ldr r0, [r0]
   AsmLine.other,                               -- moveq r1, #1
   AsmLine.other,                               -- movne r1, #0
   AsmLine.other,                               -- str r1, [r0]
   AsmLine.other,                               -- svcne 0x3
   AsmLine.adr 0 Label.g_plgnoflash,            -- adr r0, g_plgnoflash
   AsmLine.other,                               -- ldrb r0, [r0]
   AsmLine.other,                               -- cmp r0, #1
   AsmLine.other,                               -- beq skipflash
   AsmLine.ldrConst 4 0x90202204,               -- ldr r4, =0x90202204
   AsmLine.ldrConst 5 0x01FF9933,               -- ldr r5, =0x01FF9933
   AsmLine.other,                               -- mov r6, #64
   AsmLine.other,                               -- str r5, [r4]
   AsmLine.ldrConst 0 0xFF4B40,                 -- ldr r0, =0xFF4B40
   AsmLine.other,                               -- mov r1, #0
   AsmLine.other,                               -- svc 0xA
   AsmLine.other,                               -- subs r6, r6, #1
   AsmLine.other,                               -- bne flashloop
   AsmLine.other,                               -- str r6, [r4]
   AsmLine.ldrConst 0 0xFFFF8001,               -- ldr r0, =0xFFFF8001
   AsmLine.other,                               -- mov r1, #1
   AsmLine.other,                               -- svc 0xB3
   AsmLine.adr 0 Label.g_savedGameInstr,        -- adr r0, g_savedGameInstr
   AsmLine.adr 1 Label.g_gameentrypoint,        -- adr r1, g_gameentrypoint
   AsmLine.other,                               -- ldr r1, [r1]
   AsmLine.other,                               -- ldr r2, [r0]
   AsmLine.other,                               -- str r2, [r1]
   AsmLine.other,                               -- ldr r2, [r0, #4]
   AsmLine.other,                               -- str r2, [r1, #4]
   AsmLine.other,                               -- svc 0x94
   AsmLine.adr 0 Label.g_savedGameInstr,        -- adr r0, g_savedGameInstr
   AsmLine.other,                               -- push {r0}
   AsmLine.adr 5 Label.g_plgentrypoint,         -- adr r5, g_plgentrypoint
   AsmLine.other,                               -- ldr r5, [r5]
   AsmLine.other,                               -- blx r5
   AsmLine.other,                               -- add sp, sp, #4
   AsmLine.other,                               -- ldmfd sp!, {r0}
   AsmLine.other,                               -- msr cpsr, r0
   AsmLine.other,                               -- ldmfd sp!, {r0-r12}
   AsmLine.adr 14 Label.g_gameentrypoint,       -- adr lr, g_gameentrypoint
   AsmLine.other]                               -- ldr pc, [lr]

/-- The `.word` directives that follow `.pool` in the listing (lines 107-124), label by
label in the order they are written. -/
def dataSection : List (Label × List Nat) :=
  [(Label.g_savedGameInstr, [0xDEAD0000, 0xDEAD0001]),
   (Label.g_gameentrypoint, [0xDEAD0002]),
   (Label.g_plgloadexeargs, [0xDEAD0003, 0, 0, 0]),
   (Label.g_plgstartendptr, [0xDEAD0004, 0xDEAD0005]),
   (Label.g_loadexechecksum, [0xDEAD0006]),
   (Label.g_plgldrlaunchstatus, [0xDEAD0007]),
   (Label.g_plgentrypoint, [0xDEAD0008]),
   (Label.g_plgnoflash, [0xDEAD0009]),
   (Label.g_loadexefunc, [0xDEAD000A])]

/-- The constants of the `ldr rd, =const` lines, each once, in order of first use: the
words the assembler emits at `.pool`. -/
def poolConstants : List Nat :=
  (listing.filterMap fun l =>
    match l with
    | AsmLine.ldrConst _ c => some c
    | _ => none).eraseDups

/-- Byte offset of the literal pool: one 32-bit word per instruction comes before it. -/
def poolStart : Nat := 4 * listing.length

/-- Byte offset of the first data label: the literal pool comes before it. -/
def dataStart : Nat := poolStart + 4 * poolConstants.length

/-- Byte offset of a label, from the sizes of the `.word` blocks written before it. -/
def labelOffsetFrom (l : Label) : Nat → List (Label × List Nat) → Option Nat
  | _, [] => none
  | o, (l2, ws) :: rest => if l2 = l then some o else labelOffsetFrom l (o + 4 * ws.length) rest

/-- Byte offset of a label in the assembled payload. -/
def labelOffset (l : Label) : Option Nat := labelOffsetFrom l dataStart dataSection

/-- The first `.word` the listing writes under a label. -/
def labelWord (l : Label) : Option Nat :=
  (dataSection.lookup l).bind fun ws => ws.head?

/-- The little-endian 32-bit word at a byte offset of a byte sequence, `none` when the
four bytes are not all there. -/
def wordAt (bytes : List Nat) (o : Nat) : Option Nat :=
  match bytes.get? o, bytes.get? (o + 1), bytes.get? (o + 2), bytes.get? (o + 3) with
  | some b0, some b1, some b2, some b3 => some (b0 + 256 * b1 + 65536 * b2 + 16777216 * b3)
  | _, _, _, _ => none

/-- Rotation of a 32-bit word to the right by `n` bits, `n` at most 32. -/
def ror32 (x n : Nat) : Nat := ((x >>> n) ||| (x <<< (32 - n))) % 4294967296

/-- The ARM data-processing immediate of an instruction word: the low 8 bits rotated
right by twice the 4-bit rotation field. -/
def armImmediate (w : Nat) : Nat := ror32 (w &&& 0xFF) (2 * ((w >>> 8) &&& 0xF))

/-- Decodes `add rd, pc, #imm` (any condition, flags not set), the encoding of `adr` to a
label further on: the destination register and the target `o + 8 + imm`, the instruction
being at byte offset `o`. -/
def decodeAdr (o w : Nat) : Option (Nat × Nat) :=
  if w &&& 0x0FFF0000 = 0x028F0000 then some ((w >>> 12) &&& 0xF, o + 8 + armImmediate w)
  else none

/-- Decodes `ldr rd, [pc, #imm12]` or `ldr rd, [pc, #-imm12]` (word load, offset addressing,
no write-back), the encoding of `ldr rd, =const`: the destination register and the
address loaded from, the instruction being at byte offset `o`. -/
def decodeLdrLiteral (o w : Nat) : Option (Nat × Nat) :=
  if w &&& 0x0F7F0000 = 0x051F0000 then
    if w &&& 0x00800000 ≠ 0 then some ((w >>> 12) &&& 0xF, o + 8 + (w &&& 0xFFF))
    else if w &&& 0xFFF ≤ o + 8 then some ((w >>> 12) &&& 0xF, o + 8 - (w &&& 0xFFF))
    else none
  else none

/-- A data reference: the kind and destination register of the instruction making it, the
byte offset referred to and the word stored there. -/
inductive DataRef where
  | adr (rd target word : Nat)
  | ldrLiteral (rd target word : Nat)
deriving DecidableEq, Repr

/-- The data reference made by the word at byte offset `o` of the payload, when it decodes
as one. -/
def codeRef (bytes : List Nat) (o : Nat) : Option DataRef :=
  match wordAt bytes o with
  | none => none
  | some w =>
    match decodeAdr o w with
    | some (rd, t) => (wordAt bytes t).map fun v => DataRef.adr rd t v
    | none =>
      match decodeLdrLiteral o w with
      | some (rd, t) => (wordAt bytes t).map fun v => DataRef.ldrLiteral rd t v
      | none => none

/-- The data references of the code part of the payload, instruction by instruction:
`none` for a word that makes none. -/
def codeRefs (bytes : List Nat) : List (Option DataRef) :=
  (List.range listing.length).map fun i => codeRef bytes (4 * i)

/-- The data reference the listing asks of a line: an `adr` refers to the offset of its
label, where the first word of the label is; an `ldr rd, =const` refers to the word of the
literal pool that holds the constant. -/
def listingRef : AsmLine → Option (Option DataRef)
  | AsmLine.other => some none
  | AsmLine.adr rd l =>
    match labelOffset l, labelWord l with
    | some t, some v => some (some (DataRef.adr rd t v))
    | _, _ => none
  | AsmLine.ldrConst rd c =>
    let i := poolConstants.indexOf c
    if i < poolConstants.length then some (some (DataRef.ldrLiteral rd (poolStart + 4 * i) c))
    else none

/-- The data references the listing asks for, line by line. -/
def listingRefs : List (Option (Option DataRef)) := listing.map listingRef

end Plugin3GX

/-! # Theorems -/

namespace FileSys.ArchiveFactory_SystemSaveData

variable {Client : Type}

/-- C1: in every state `IsSlow()` equals `IsUsingArtic()` and is true exactly when the held
client pointer is not null; a factory built from a mount point reports `false`, and after
`RegisterArtic` with a non-null client the factory reports `true`. -/
theorem isSlow_iff_client_registered (f : ArchiveFactory_SystemSaveData Client)
    (containerPath : String → String) (mount_point : String) (c : Client) :
    f.IsSlow = f.IsUsingArtic ∧
    (f.IsSlow = true ↔ f.artic_client ≠ none) ∧
    (fromMountPoint containerPath mount_point : ArchiveFactory_SystemSaveData Client).IsSlow
      = false ∧
    (f.RegisterArtic (some c)).IsSlow = true := by
  refine ⟨rfl, ?_, rfl, rfl⟩
  cases h : f.artic_client <;> simp [IsSlow, IsUsingArtic, h]

/-- C2: `RegisterArtic` replaces the held client: registering `c1` then `c2` gives the
state of registering `c2` alone, registering `c` twice is the same as once, and the mount
root `base_path` is never changed. -/
theorem registerArtic_replaces (f : ArchiveFactory_SystemSaveData Client)
    (c1 c2 : Option Client) :
    (f.RegisterArtic c1).RegisterArtic c2 = f.RegisterArtic c2 ∧
    ((f.RegisterArtic c1).RegisterArtic c2).artic_client = c2 ∧
    (f.RegisterArtic c1).RegisterArtic c1 = f.RegisterArtic c1 ∧
    (f.RegisterArtic c1).base_path = f.base_path ∧
    ((f.RegisterArtic c1).RegisterArtic c2).base_path = f.base_path :=
  ⟨rfl, rfl, rfl, rfl, rfl⟩

/-- C3: the record written by `serialize` depends on `base_path` and on nothing else: two
factories write equal records exactly when their `base_path` strings are equal, whatever
clients are registered on them. -/
theorem snapshot_eq_iff_base_path_eq (f g : ArchiveFactory_SystemSaveData Client) :
    (f.snapshot = g.snapshot ↔ f.base_path = g.base_path) ∧
    f.snapshot = [ArchiveItem.string f.base_path] := by
  simp [snapshot, serializeSave, ArchiveFactory.serializeSave]

/-- C4: loading the record saved from any factory into a default-constructed factory
succeeds and gives a factory with the same `base_path` and no client (`IsSlow()` false);
remote backing is present afterwards only once `RegisterArtic` is called again. -/
theorem restore_snapshot (f : ArchiveFactory_SystemSaveData Client) (c : Client) :
    ∃ r : ArchiveFactory_SystemSaveData Client,
      restore f.snapshot = some r ∧
      r.base_path = f.base_path ∧
      r.artic_client = none ∧
      r.IsSlow = false ∧
      (r.RegisterArtic (some c)).IsSlow = true ∧
      (defaultConstructed : ArchiveFactory_SystemSaveData Client).serializeLoad f.snapshot
        = some (r, []) :=
  ⟨{ base_path := f.base_path, artic_client := none }, rfl, rfl, rfl, rfl, rfl, rfl⟩

end FileSys.ArchiveFactory_SystemSaveData


namespace FileSys

/-! ### Helper lemmas for the path codec -/

theorem readU32_u32Bytes_high (high low : Nat) (h : high < 4294967296) :
    readU32 (u32Bytes high ++ u32Bytes low) 0 = high := by
  simp [readU32, u32Bytes, List.getD]
  omega

theorem readU32_u32Bytes_low (high low : Nat) (h : low < 4294967296) :
    readU32 (u32Bytes high ++ u32Bytes low) 4 = low := by
  simp [readU32, u32Bytes, List.getD]
  omega

theorem hexValue_hexDigit (d : Nat) (h : d < 16) : hexValue (hexDigit d) = some d := by
  interval_cases d <;> decide

theorem parseHex_hex8 (w : Nat) (h : w < 4294967296) : parseHex (hex8 w) = some w := by
  have h16 : ∀ k, hexValue (hexDigit (k % 16)) = some (k % 16) :=
    fun k => hexValue_hexDigit _ (Nat.mod_lt _ (by decide))
  simp only [parseHex, hex8, List.foldl, h16, Option.bind, Option.map, Option.some.injEq]
  omega

theorem length_hex8 (w : Nat) : (hex8 w).length = 8 := rfl

theorem stripLeading_append (a b : List Char) : stripLeading a (a ++ b) = some b := by
  induction a with
  | nil => cases b <;> rfl
  | cons x xs ih => simp [stripLeading, ih]

theorem data_getSystemSaveDataPath (subfolder m : String) (p : Path) :
    (GetSystemSaveDataPath subfolder m p).data
      = (m ++ "/" ++ subfolder ++ "/").data
          ++ (hex8 (readU32 p.binary 0) ++ hex8 (readU32 p.binary 4)) := by
  simp [GetSystemSaveDataPath, String.data_append]

theorem decode_getSystemSaveDataPath (subfolder m : String) (high low : Nat)
    (hh : high < 4294967296) (hl : low < 4294967296) :
    DecodeSystemSaveDataPath subfolder m
        (GetSystemSaveDataPath subfolder m (ConstructSystemSaveDataBinaryPath high low))
      = some (high, low) := by
  unfold DecodeSystemSaveDataPath
  rw [data_getSystemSaveDataPath, stripLeading_append]
  simp only [ConstructSystemSaveDataBinaryPath, readU32_u32Bytes_high high low hh,
    readU32_u32Bytes_low high low hl]
  have ht : (hex8 high ++ hex8 low).take 8 = hex8 high := by
    rw [List.take_append_of_le_length (by simp [length_hex8])]
    exact List.take_of_length_le (by simp [length_hex8])
  have hd : (hex8 high ++ hex8 low).drop 8 = hex8 low := by
    rw [List.drop_append_of_le_length (by simp [length_hex8])]
    simp [List.drop_of_length_le, length_hex8]
  simp [ht, hd, parseHex_hex8 high hh, parseHex_hex8 low hl, length_hex8]

/-- C5: for every mount point (and every name of the container subfolder) the path of a
pair of 32-bit words `(high, low)` decodes back to exactly that pair, and two different
pairs never have the same path. -/
theorem getSystemSaveDataPath_injective (subfolder m : String) (high1 low1 high2 low2 : Nat)
    (hh1 : high1 < 4294967296) (hl1 : low1 < 4294967296)
    (hh2 : high2 < 4294967296) (hl2 : low2 < 4294967296) :
    DecodeSystemSaveDataPath subfolder m
        (GetSystemSaveDataPath subfolder m (ConstructSystemSaveDataBinaryPath high1 low1))
      = some (high1, low1) ∧
    ((high1, low1) ≠ (high2, low2) →
      GetSystemSaveDataPath subfolder m (ConstructSystemSaveDataBinaryPath high1 low1)
        ≠ GetSystemSaveDataPath subfolder m (ConstructSystemSaveDataBinaryPath high2 low2)) := by
  refine ⟨decode_getSystemSaveDataPath subfolder m high1 low1 hh1 hl1, ?_⟩
  intro hne heq
  have e1 := decode_getSystemSaveDataPath subfolder m high1 low1 hh1 hl1
  have e2 := decode_getSystemSaveDataPath subfolder m high2 low2 hh2 hl2
  rw [heq, e2] at e1
  exact hne (Option.some.inj e1).symm

/-- Witness of C5 at the mount point `/nand`, the pairs `(0x00010034, 0xDEADBEEF)` and
`(0xDEADBEEF, 0x00010034)`. -/
theorem getSystemSaveDataPath_injective_witness :
    DecodeSystemSaveDataPath "sysdata" "/nand"
        (GetSystemSaveDataPath "sysdata" "/nand"
          (ConstructSystemSaveDataBinaryPath 0x00010034 0xDEADBEEF))
      = some (0x00010034, 0xDEADBEEF) ∧
    GetSystemSaveDataPath "sysdata" "/nand" (ConstructSystemSaveDataBinaryPath 0x00010034 0xDEADBEEF)
      ≠ GetSystemSaveDataPath "sysdata" "/nand"
          (ConstructSystemSaveDataBinaryPath 0xDEADBEEF 0x00010034) :=
  have h := getSystemSaveDataPath_injective "sysdata" "/nand" 0x00010034 0xDEADBEEF
    0xDEADBEEF 0x00010034 (by decide) (by decide) (by decide) (by decide)
  ⟨h.1, h.2 (by decide)⟩

end FileSys

namespace VideoCore

/-- C6: with the Software graphics API the scale factor is 1 whatever the
`resolution_factor` setting and the window layout are; with any other API it is
`resolution_factor` when that is not zero and the scaling ratio of the render window's
framebuffer layout when it is zero. -/
theorem getResolutionScaleFactor_cases {GraphicsAPI Layout : Type} [DecidableEq GraphicsAPI]
    (Software api : GraphicsAPI) (GetScalingRatio : Layout → Nat)
    (resolution_factor : Nat) (layout : Layout) :
    GetResolutionScaleFactor Software GetScalingRatio
        { graphics_api := Software, resolution_factor := resolution_factor } layout = 1 ∧
    (api ≠ Software → resolution_factor ≠ 0 →
      GetResolutionScaleFactor Software GetScalingRatio
        { graphics_api := api, resolution_factor := resolution_factor } layout
        = resolution_factor) ∧
    (api ≠ Software →
      GetResolutionScaleFactor Software GetScalingRatio
        { graphics_api := api, resolution_factor := 0 } layout = GetScalingRatio layout) := by
  refine ⟨by simp [GetResolutionScaleFactor], ?_, ?_⟩
  · intro ha hr
    simp [GetResolutionScaleFactor, ha, hr]
  · intro ha
    simp [GetResolutionScaleFactor, ha]

/-- Witness of C6: API number 0 is Software; with API 1 and a window whose layout has
scaling ratio 5, the setting 3 gives 3 and the setting 0 gives 5. -/
theorem getResolutionScaleFactor_cases_witness :
    GetResolutionScaleFactor (0 : Nat) (fun l : Nat => l)
        { graphics_api := 1, resolution_factor := 3 } 5 = 3 ∧
    GetResolutionScaleFactor (0 : Nat) (fun l : Nat => l)
        { graphics_api := 1, resolution_factor := 0 } 5 = 5 :=
  ⟨(getResolutionScaleFactor_cases (0 : Nat) 1 (fun l : Nat => l) 3 5).2.1
      (by decide) (by decide),
   (getResolutionScaleFactor_cases (0 : Nat) 1 (fun l : Nat => l) 3 5).2.2 (by decide)⟩

/-- C7: a call of `RequestScreenshot` made while `screenshot_requested` is set changes
nothing; a call made while it is clear stores the data, callback and layout of the call and
sets the flag. After every call `IsScreenshotPending()` is true, and after any sequence of
calls the stored request is the first one made since the flag was clear. -/
theorem requestScreenshot_keeps_first {Ptr Callback Layout : Type}
    (s : RendererSettings Ptr Callback Layout) (data : Ptr) (callback : Callback)
    (layout : Layout) (calls : List (ScreenshotRequest Ptr Callback Layout)) :
    (s.screenshot_requested = true → RequestScreenshot s data callback layout = s) ∧
    (s.screenshot_requested = false →
      RequestScreenshot s data callback layout
        = { screenshot_requested := true, screenshot_bits := data,
            screenshot_complete_callback := callback,
            screenshot_framebuffer_layout := layout }) ∧
    IsScreenshotPending (RequestScreenshot s data callback layout) = true ∧
    (s.screenshot_requested = true → requestAll s calls = s) ∧
    (s.screenshot_requested = false →
      requestAll s ({ data := data, callback := callback, layout := layout } :: calls)
        = { screenshot_requested := true, screenshot_bits := data,
            screenshot_complete_callback := callback,
            screenshot_framebuffer_layout := layout }) := by
  have pending : ∀ (t : RendererSettings Ptr Callback Layout)
      (cs : List (ScreenshotRequest Ptr Callback Layout)),
      t.screenshot_requested = true → requestAll t cs = t := by
    intro t cs
    induction cs generalizing t with
    | nil => intro _; rfl
    | cons r rs ih =>
      intro ht
      have hstep : RequestScreenshot t r.data r.callback r.layout = t := by
        simp [RequestScreenshot, ht]
      show requestAll (RequestScreenshot t r.data r.callback r.layout) rs = t
      rw [hstep]
      exact ih t ht
  refine ⟨?_, ?_, ?_, pending s calls, ?_⟩
  · intro h
    simp [RequestScreenshot, h]
  · intro h
    simp [RequestScreenshot, h]
  · cases h : s.screenshot_requested <;> simp [RequestScreenshot, IsScreenshotPending, h]
  · intro h
    have hstep : RequestScreenshot s data callback layout
        = { screenshot_requested := true, screenshot_bits := data,
            screenshot_complete_callback := callback,
            screenshot_framebuffer_layout := layout } := by
      simp [RequestScreenshot, h]
    show requestAll (RequestScreenshot s data callback layout) calls = _
    rw [hstep]
    exact pending _ calls rfl

/-- Witness of C7: a second request (buffer 20, callback 21, layout 22) made while the
first (buffer 10, callback 11, layout 12) is pending is ignored, and from clear settings
the first of two requests is the one stored. -/
theorem requestScreenshot_keeps_first_witness :
    RequestScreenshot
        ({ screenshot_requested := true, screenshot_bits := 10,
           screenshot_complete_callback := 11, screenshot_framebuffer_layout := 12 } :
          RendererSettings Nat Nat Nat) 20 21 22
      = { screenshot_requested := true, screenshot_bits := 10,
          screenshot_complete_callback := 11, screenshot_framebuffer_layout := 12 } ∧
    requestAll
        ({ screenshot_requested := false, screenshot_bits := 0,
           screenshot_complete_callback := 0, screenshot_framebuffer_layout := 0 } :
          RendererSettings Nat Nat Nat)
        [{ data := 10, callback := 11, layout := 12 }, { data := 20, callback := 21, layout := 22 }]
      = { screenshot_requested := true, screenshot_bits := 10,
          screenshot_complete_callback := 11, screenshot_framebuffer_layout := 12 } :=
  ⟨(requestScreenshot_keeps_first
      ({ screenshot_requested := true, screenshot_bits := 10,
         screenshot_complete_callback := 11, screenshot_framebuffer_layout := 12 } :
        RendererSettings Nat Nat Nat) 20 21 22 []).1 rfl,
   (requestScreenshot_keeps_first
      ({ screenshot_requested := false, screenshot_bits := 0,
         screenshot_complete_callback := 0, screenshot_framebuffer_layout := 0 } :
        RendererSettings Nat Nat Nat) 10 11 12
      [{ data := 20, callback := 21, layout := 22 }]).2.2.2.2 rfl⟩

end VideoCore

namespace Plugin3GX

set_option maxRecDepth 100000

/-- C8: in the code part of `g_plugin_loader_bootloader` the words that decode as
`add rd, pc, #imm` or as a pc-relative `ldr` are exactly the `adr` and `ldr rd, =const`
lines of the listing, with the listed destination register; the target of every `adr` is
the byte offset of the label the listing names, where the first word of that label is
stored, and every `ldr rd, =const` loads the listed constant from the literal pool. The
words from the first label on are those of the `.word` directives of the listing. -/
theorem bootloader_data_references :
    g_plugin_loader_bootloader.length = 412 ∧
    (codeRefs g_plugin_loader_bootloader).map some = listingRefs ∧
    (codeRefs g_plugin_loader_bootloader).filterMap id =
      [DataRef.adr 0 0x104 0xDEAD0004, DataRef.adr 2 0xF4 0xDEAD0003,
       DataRef.adr 15 0x11C 0xDEAD000A, DataRef.adr 1 0x10C 0xDEAD0006,
       DataRef.adr 0 0x110 0xDEAD0007, DataRef.adr 0 0x118 0xDEAD0009,
       DataRef.ldrLiteral 4 0xD8 0x90202204, DataRef.ldrLiteral 5 0xDC 0x01FF9933,
       DataRef.ldrLiteral 0 0xE0 0x00FF4B40, DataRef.ldrLiteral 0 0xE4 0xFFFF8001,
       DataRef.adr 0 0xE8 0xDEAD0000, DataRef.adr 1 0xF0 0xDEAD0002,
       DataRef.adr 0 0xE8 0xDEAD0000, DataRef.adr 5 0x114 0xDEAD0008,
       DataRef.adr 14 0xF0 0xDEAD0002] ∧
    poolStart = 0xD8 ∧ dataStart = 0xE8 ∧
    (List.range 4).map (fun i => wordAt g_plugin_loader_bootloader (poolStart + 4 * i))
      = poolConstants.map some ∧
    (List.range 14).map (fun i => wordAt g_plugin_loader_bootloader (dataStart + 4 * i))
      = (dataSection.flatMap fun e => e.2).map some := by
  refine ⟨by decide, by decide, by decide, by decide, by decide, by decide, by decide⟩

end Plugin3GX
